import Mathlib

/-!
Shallow embedding of the upload pipeline of `file-storage-s3`
(`src/api/videos.ts` and `src/api/assets.ts`).

External collaborators (JWT validation, the record store, the S3 client,
the ffprobe/ffmpeg subprocesses, the random-byte source) are modelled as
inputs supplied in an environment record; each handler is a pure function
from its configuration and environment to a `RunResult` that records the
HTTP outcome, the scratch/asset files still present when the call returns,
every path written during the run, every storage upload attempted and
every record handed to the record store.
-/

/-- Configuration fields of `ApiConfig` used by the two handlers. -/
structure ApiConfig where
  s3CfDistribution : String
  assetsRoot : String
  port : Nat
deriving Repr, DecidableEq

/-- The video record of `src/db/videos.ts`: the fields the handlers touch,
plus an opaque remainder. -/
structure Video where
  id : String
  userID : String
  videoURL : Option String
  thumbnailURL : Option String
  other : List String
deriving Repr, DecidableEq

/-- The multipart `File` value: size in bytes and its content type. -/
structure UploadedFile where
  size : Nat
  type : String
deriving Repr, DecidableEq

/-- The error classes thrown by the handlers (`src/api/errors.ts` classes,
plus the plain `Error`s thrown by the probe, remux, storage and
record-store calls, distinguished here by their origin). -/
inductive ApiError where
  | badRequest (msg : String)
  | userForbidden (msg : String)
  | notFound (msg : String)
  | authError (msg : String)
  | probeError (msg : String)
  | remuxError (msg : String)
  | storageError (msg : String)
  | persistenceError (msg : String)
deriving Repr, DecidableEq

/-- Decidable equality for `Except`, needed by the environment records. -/
instance {α β : Type} [DecidableEq α] [DecidableEq β] : DecidableEq (Except α β) :=
  fun x y =>
  match x, y with
  | .ok a, .ok b =>
    if h : a = b then isTrue (by rw [h]) else isFalse (fun hc => h (Except.ok.inj hc))
  | .error a, .error b =>
    if h : a = b then isTrue (by rw [h]) else isFalse (fun hc => h (Except.error.inj hc))
  | .ok _, .error _ => isFalse (fun hc => Except.noConfusion hc)
  | .error _, .ok _ => isFalse (fun hc => Except.noConfusion hc)

/-- One hex digit, lowercase, as produced by `Buffer.toString("hex")`. -/
def hexDigit (n : Nat) : Char :=
  if n < 10 then Char.ofNat (48 + n) else Char.ofNat (87 + n)

/-- A byte rendered as two hex digits. -/
def byteToHex (b : Nat) : List Char :=
  [hexDigit (b / 16), hexDigit (b % 16)]

/-- `Buffer.toString("hex")` over a byte list. -/
def bytesToHex : List Nat → List Char
  | [] => []
  | b :: bs => byteToHex b ++ bytesToHex bs

/-- The hex string of `randomBytes(n)`. -/
def hexString (bs : List Nat) : String :=
  String.mk (bytesToHex bs)

/-- The aspect-ratio decision of `getVideoAspectRatio` (src/api/videos.ts,
lines 118-128), with the double arithmetic modelled exactly in ℚ. -/
def classifyAspect (width height : ℚ) : String :=
  let ratio := width / height
  if |ratio - 16 / 9| < 1 / 10 then ("landscape")
  else if |ratio - 9 / 16| < 1 / 10 then ("portrait")
  else ("other")

/-- Outcome of the ffprobe subprocess: exit code, stderr, and the
width/height pair extracted from its JSON output (`none` when the output
is malformed or the first stream is missing). -/
structure ProbeOutcome where
  exitCode : Nat
  stderr : String
  dims : Option (Nat × Nat)
deriving Repr, DecidableEq

/-- `getVideoAspectRatio` (src/api/videos.ts lines 86-129): fails on a
non-zero ffprobe exit, on missing dimensions, and on a zero width or
height (`!stream.width` is truthy for 0); otherwise classifies. -/
def getVideoAspectRatio (p : ProbeOutcome) : Except ApiError String :=
  if p.exitCode ≠ 0 then .error (.probeError ("ffprobe failed with exit code"))
  else
    match p.dims with
    | none => .error (.probeError ("Could not extract video dimensions"))
    | some (w, h) =>
      if w = 0 ∨ h = 0 then .error (.probeError ("Could not extract video dimensions"))
      else .ok (classifyAspect (w : ℚ) (h : ℚ))

/-- Outcome of the ffmpeg remux subprocess. -/
structure RemuxOutcome where
  exitCode : Nat
  stderr : String
deriving Repr, DecidableEq

/-- `processVideoForFastStart` (src/api/videos.ts lines 131-159): the
output path is the input path with `.processed` appended — a sibling, not
a replacement; a non-zero ffmpeg exit throws. -/
def processVideoForFastStart (filePath : String) (r : RemuxOutcome) :
    Except ApiError String :=
  if r.exitCode ≠ 0 then .error (.remuxError r.stderr)
  else .ok (filePath ++ (".processed"))

/-- Environment of one `handlerUploadVideo` run: the request parameters
and the behaviour of every external collaborator during that run. -/
structure VideoEnv where
  videoId : Option String
  uuidValid : Bool
  auth : Except String String
  storedVideo : Option Video
  formFile : Option UploadedFile
  randBytes : List Nat
  probe : ProbeOutcome
  remux : RemuxOutcome
  s3Ok : Bool
  dbOk : Bool
deriving Repr, DecidableEq

/-- What one handler run did: the HTTP outcome (status and JSON body on
success), the files present on disk when the call returns, every path
written, every storage upload attempted, and every record handed to
`updateVideo`. -/
structure RunResult where
  outcome : Except ApiError (Nat × Option Video)
  fs : List String
  writes : List String
  storageCalls : List (String × String)
  dbWrites : List Video
deriving Repr, DecidableEq

/-- True when the run returned an HTTP success. -/
def RunResult.succeeded (r : RunResult) : Bool :=
  match r.outcome with
  | .ok _ => true
  | .error _ => false

/-- The JSON body of a successful run. -/
def RunResult.body (r : RunResult) : Option Video :=
  match r.outcome with
  | .ok (_, b) => b
  | .error _ => none

/-- A rejection before any side effect. -/
def reject (e : ApiError) : RunResult :=
  ⟨.error e, [], [], [], []⟩

/-- `MAX_UPLOAD_SIZE` of src/api/videos.ts: 1 GiB. -/
def MAX_UPLOAD_SIZE : Nat := 1 <<< 30

/-- The `try` block of `handlerUploadVideo` (src/api/videos.ts lines
61-73): write the temp file, probe, remux, upload, commit. Its result is
the state before the `finally` cleanup runs. -/
def uploadTryBlock (cfg : ApiConfig) (env : VideoEnv) (video : Video)
    (fileKey tempPath : String) : RunResult :=
  match getVideoAspectRatio env.probe with
  | .error e => ⟨.error e, [tempPath], [tempPath], [], []⟩
  | .ok aspectRatio =>
    match processVideoForFastStart tempPath env.remux with
    | .error e => ⟨.error e, [tempPath], [tempPath], [], []⟩
    | .ok processedPath =>
      let fileKey2 := aspectRatio ++ ("/") ++ fileKey
      if env.s3Ok = false then
        ⟨.error (.storageError ("uploadVideoToS3 failed")), [tempPath, processedPath],
          [tempPath, processedPath], [(fileKey2, processedPath)], []⟩
      else
        let video2 := { video with
          videoURL := some (("https://") ++ cfg.s3CfDistribution ++ ("/") ++ fileKey2) }
        if env.dbOk = false then
          ⟨.error (.persistenceError ("updateVideo failed")), [tempPath, processedPath],
            [tempPath, processedPath], [(fileKey2, processedPath)], [video2]⟩
        else
          ⟨.ok (200, some video2), [tempPath, processedPath],
            [tempPath, processedPath], [(fileKey2, processedPath)], [video2]⟩

/-- `handlerUploadVideo` (src/api/videos.ts lines 14-84): the validation
gates in source order, then the staged pipeline inside `try`, then the
`finally` block, which deletes only `tempPath`. -/
def handlerUploadVideo (cfg : ApiConfig) (env : VideoEnv) : RunResult :=
  match env.videoId with
  | none => reject (.badRequest ("Invalid video ID"))
  | some _ =>
    if env.uuidValid = false then reject (.badRequest ("Invalid video ID format"))
    else
      match env.auth with
      | .error m => reject (.authError m)
      | .ok userID =>
        match env.storedVideo with
        | none => reject (.badRequest ("Video not found"))
        | some video =>
          if video.userID ≠ userID then
            reject (.userForbidden ("You are not the owner of this video"))
          else
            match env.formFile with
            | none => reject (.badRequest ("Invalid video file"))
            | some f =>
              if f.size > MAX_UPLOAD_SIZE then
                reject (.badRequest ("Video file exceeds maximum size"))
              else if f.type ≠ ("video/mp4") then
                reject (.badRequest ("Invalid Content-Type for video"))
              else
                let fileKey := hexString env.randBytes ++ (".mp4")
                let tempPath := ("/tmp/") ++ fileKey
                let r := uploadTryBlock cfg env video fileKey tempPath
                { r with fs := r.fs.erase tempPath }

/-- `parts = mediaType.split("/")` of `mediaTypeToExt`, with JavaScript
`String.split` semantics on a single-character separator. -/
def splitSlash : List Char → List (List Char)
  | [] => [[]]
  | c :: cs =>
    if c = ('/') then [] :: splitSlash cs
    else
      match splitSlash cs with
      | [] => [[c]]
      | p :: ps => (c :: p) :: ps

/-- `mediaTypeToExt` (src/api/assets.ts lines 13-19): `.bin` unless the
split yields exactly two parts, else a dot plus the second part. -/
def mediaTypeToExt (mediaType : List Char) : List Char :=
  match splitSlash mediaType with
  | [_, p] => ('.') :: p
  | _ => (".bin").data

/-- `mediaTypeToExt` over `String`. -/
def mediaTypeToExtS (m : String) : String :=
  String.mk (mediaTypeToExt m.data)

/-- `getAssetDiskPath` (src/api/assets.ts lines 21-23). -/
def getAssetDiskPath (cfg : ApiConfig) (assetPath : String) : String :=
  cfg.assetsRoot ++ ("/") ++ assetPath

/-- `getAssetUrl` (src/api/assets.ts lines 25-27). -/
def getAssetUrl (cfg : ApiConfig) (assetPath : String) : String :=
  ("http://localhost:") ++ toString cfg.port ++ ("/assets/") ++ assetPath

/-- `MAX_UPLOAD_SIZE` of the thumbnail handler: 10 MiB. -/
def THUMB_MAX_UPLOAD_SIZE : Nat := 10 <<< 20

/-- Environment of one `handlerUploadThumbnail` run. -/
structure ThumbEnv where
  videoId : Option String
  auth : Except String String
  storedVideo : Option Video
  formFile : Option UploadedFile
  dbOk : Bool
deriving Repr, DecidableEq

/-- `handlerUploadThumbnail` (src/api/assets.ts): validation gates in
source order (no UUID check, `NotFoundError` for a missing record), then
a direct write to the final asset path, the record update, and the
response — no temp file, no `try`/`finally`, no deletion ever. -/
def handlerUploadThumbnail (cfg : ApiConfig) (env : ThumbEnv) : RunResult :=
  match env.videoId with
  | none => reject (.badRequest ("Invalid video ID"))
  | some videoId =>
    match env.auth with
    | .error m => reject (.authError m)
    | .ok userID =>
      match env.storedVideo with
      | none => reject (.notFound ("Could not find video"))
      | some video =>
        if video.userID ≠ userID then
          reject (.userForbidden ("You are not the owner of this video"))
        else
          match env.formFile with
          | none => reject (.badRequest ("Invalid thumbnail file"))
          | some f =>
            if f.size > THUMB_MAX_UPLOAD_SIZE then
              reject (.badRequest ("Thumbnail file exceeds maximum size"))
            else if f.type = ("") then
              reject (.badRequest ("Missing Content-Type for thumbnail"))
            else
              let filename := videoId ++ mediaTypeToExtS f.type
              let assetDiskPath := getAssetDiskPath cfg filename
              let video2 := { video with thumbnailURL := some (getAssetUrl cfg filename) }
              if env.dbOk = false then
                ⟨.error (.persistenceError ("updateVideo failed")), [assetDiskPath],
                  [assetDiskPath], [], [video2]⟩
              else
                ⟨.ok (200, some video2), [assetDiskPath], [assetDiskPath], [], [video2]⟩

/-- The spec's aspect decision rule, stated from the spec's words (§4.3):
ratio = width/height, `landscape` when the ratio is within 0.1 of 16:9,
`portrait` when within 0.1 of 9:16, else `other`; for comparison with the
code's `classifyAspect`. -/
def specClassify (width height : Nat) : String :=
  if |(width : ℚ) / (height : ℚ) - 16 / 9| < 1 / 10 then ("landscape")
  else if |(width : ℚ) / (height : ℚ) - 9 / 16| < 1 / 10 then ("portrait")
  else ("other")

/-- Inverse of `hexDigit`, used to show hex encoding loses no entropy. -/
def hexDigitInv (c : Char) : Nat :=
  if 97 ≤ c.toNat then c.toNat - 87 else c.toNat - 48

/-- True exactly for the `NotFoundError` class. -/
def ApiError.isNotFoundKind : ApiError → Bool
  | .notFound _ => true
  | _ => false

/-- True when the run was rejected with the `NotFoundError` class. -/
def RunResult.rejectedWithNotFound (r : RunResult) : Bool :=
  match r.outcome with
  | .error e => e.isNotFoundKind
  | .ok _ => false

/-- A concrete configuration for concrete runs. -/
def cfg0 : ApiConfig := ⟨("cf.example.com"), ("assets"), 8091⟩

/-- A concrete stored video record owned by `user-1`. -/
def vid0 : Video := ⟨("vid-1"), ("user-1"), none, none, [("created")]⟩

/-- Concrete output of `randomBytes(32)`. -/
def bytes0 : List Nat := List.replicate 32 0

/-- A concrete syntactically valid video id. -/
def uuid0 : String := ("9044ab54-0000-4000-8000-000000000000")

/-- A valid 1000-byte mp4 upload. -/
def fileOk : UploadedFile := ⟨1000, ("video/mp4")⟩

/-- A fully successful primary-media run: owner authenticated, record
present, valid file, 1920x1080 probe, remux exit 0, storage and record
store both succeed. -/
def envOk : VideoEnv :=
  ⟨some uuid0, true, .ok ("user-1"), some vid0, some fileOk, bytes0,
    ⟨0, (""), some (1920, 1080)⟩, ⟨0, ("")⟩, true, true⟩

/-- Same run but the videoID has no record in the record store. -/
def envNoVideo : VideoEnv := { envOk with storedVideo := none }

/-- Same run but the remux subprocess exits with code 1. -/
def envRemuxFail : VideoEnv := { envOk with remux := ⟨1, ("ffmpeg diagnostics")⟩ }

/-- Same run but the uploaded file is `video/quicktime`. -/
def envBadType : VideoEnv := { envOk with formFile := some ⟨1000, ("video/quicktime")⟩ }

/-- Same run but the storage upload fails. -/
def envS3Fail : VideoEnv := { envOk with s3Ok := false }

/-- A valid 1000-byte png thumbnail upload. -/
def fileThumb : UploadedFile := ⟨1000, ("image/png")⟩

/-- A fully successful thumbnail run. -/
def tenvOk : ThumbEnv := ⟨some uuid0, .ok ("user-1"), some vid0, some fileThumb, true⟩

/-- Thumbnail run whose videoID has no record in the record store. -/
def tenvNoVideo : ThumbEnv := { tenvOk with storedVideo := none }

/-- Thumbnail run in which the record-store update fails. -/
def tenvDbFail : ThumbEnv := { tenvOk with dbOk := false }

/-- A fully successful `handlerUploadVideo` run computed in closed form:
the staged temp file, the remuxed sibling, the namespaced key, the one
storage upload, the one record handed to `updateVideo`, and — after the
`finally` block — only the remuxed sibling still on disk. -/
theorem handlerUploadVideo_success_spec (cfg : ApiConfig) (env : VideoEnv)
    (s u : String) (video : Video) (f : UploadedFile) (w h : Nat)
    (h1 : env.videoId = some s) (h2 : env.uuidValid = true) (h3 : env.auth = .ok u)
    (h4 : env.storedVideo = some video) (h5 : video.userID = u)
    (h6 : env.formFile = some f) (h7 : f.size ≤ MAX_UPLOAD_SIZE)
    (h8 : f.type = ("video/mp4")) (h9 : env.probe.exitCode = 0)
    (h10 : env.probe.dims = some (w, h)) (h11 : w ≠ 0) (h12 : h ≠ 0)
    (h13 : env.remux.exitCode = 0) (h14 : env.s3Ok = true) (h15 : env.dbOk = true) :
    handlerUploadVideo cfg env =
      (let fileKey := hexString env.randBytes ++ (".mp4")
      let tempPath := ("/tmp/") ++ fileKey
      let processedPath := tempPath ++ (".processed")
      let fileKey2 := classifyAspect (w : ℚ) (h : ℚ) ++ ("/") ++ fileKey
      let video2 := { video with
        videoURL := some (("https://") ++ cfg.s3CfDistribution ++ ("/") ++ fileKey2) }
      ⟨.ok (200, some video2), [processedPath], [tempPath, processedPath],
        [(fileKey2, processedPath)], [video2]⟩) := by
  have h7' : ¬ (f.size > MAX_UPLOAD_SIZE) := by omega
  simp only [handlerUploadVideo, h1, h2, h3, h4, h5, h6, h8, h7', uploadTryBlock,
    getVideoAspectRatio, processVideoForFastStart, h9, h10, h11, h12, h13, h14, h15]
  simp

/-- Like `handlerUploadVideo_success_spec` but the record-store update
fails: same staged files, same storage upload, same record handed over,
error surfaced instead of a response. -/
theorem handlerUploadVideo_db_failure (cfg : ApiConfig) (env : VideoEnv)
    (s u : String) (video : Video) (f : UploadedFile) (w h : Nat)
    (h1 : env.videoId = some s) (h2 : env.uuidValid = true) (h3 : env.auth = .ok u)
    (h4 : env.storedVideo = some video) (h5 : video.userID = u)
    (h6 : env.formFile = some f) (h7 : f.size ≤ MAX_UPLOAD_SIZE)
    (h8 : f.type = ("video/mp4")) (h9 : env.probe.exitCode = 0)
    (h10 : env.probe.dims = some (w, h)) (h11 : w ≠ 0) (h12 : h ≠ 0)
    (h13 : env.remux.exitCode = 0) (h14 : env.s3Ok = true) (h15 : env.dbOk = false) :
    handlerUploadVideo cfg env =
      (let fileKey := hexString env.randBytes ++ (".mp4")
      let tempPath := ("/tmp/") ++ fileKey
      let processedPath := tempPath ++ (".processed")
      let fileKey2 := classifyAspect (w : ℚ) (h : ℚ) ++ ("/") ++ fileKey
      let video2 := { video with
        videoURL := some (("https://") ++ cfg.s3CfDistribution ++ ("/") ++ fileKey2) }
      ⟨.error (.persistenceError ("updateVideo failed")), [processedPath],
        [tempPath, processedPath], [(fileKey2, processedPath)], [video2]⟩) := by
  have h7' : ¬ (f.size > MAX_UPLOAD_SIZE) := by omega
  simp only [handlerUploadVideo, h1, h2, h3, h4, h5, h6, h8, h7', uploadTryBlock,
    getVideoAspectRatio, processVideoForFastStart, h9, h10, h11, h12, h13, h14, h15]
  simp

/-- An unknown videoID makes `handlerUploadVideo` throw
`BadRequestError("Video not found")` before any side effect. -/
theorem handlerUploadVideo_missing_video (cfg : ApiConfig) (env : VideoEnv)
    (s u : String)
    (h1 : env.videoId = some s) (h2 : env.uuidValid = true) (h3 : env.auth = .ok u)
    (h4 : env.storedVideo = none) :
    handlerUploadVideo cfg env = reject (.badRequest ("Video not found")) := by
  simp only [handlerUploadVideo, h1, h2, h3, h4]
  simp

/-- An unknown videoID makes `handlerUploadThumbnail` throw
`NotFoundError` before any side effect. -/
theorem handlerUploadThumbnail_missing_video (cfg : ApiConfig) (env : ThumbEnv)
    (s u : String)
    (h1 : env.videoId = some s) (h2 : env.auth = .ok u)
    (h3 : env.storedVideo = none) :
    handlerUploadThumbnail cfg env = reject (.notFound ("Could not find video")) := by
  simp only [handlerUploadThumbnail, h1, h2, h3]

/-- A non-zero remux exit surfaces the remux error after the `finally`
cleanup of the temp file: nothing on disk, no storage call, no record
handed to the store; only the raw staged write ever happened. -/
theorem handlerUploadVideo_remux_failure (cfg : ApiConfig) (env : VideoEnv)
    (s u : String) (video : Video) (f : UploadedFile) (w h : Nat)
    (h1 : env.videoId = some s) (h2 : env.uuidValid = true) (h3 : env.auth = .ok u)
    (h4 : env.storedVideo = some video) (h5 : video.userID = u)
    (h6 : env.formFile = some f) (h7 : f.size ≤ MAX_UPLOAD_SIZE)
    (h8 : f.type = ("video/mp4")) (h9 : env.probe.exitCode = 0)
    (h10 : env.probe.dims = some (w, h)) (h11 : w ≠ 0) (h12 : h ≠ 0)
    (h13 : env.remux.exitCode ≠ 0) :
    handlerUploadVideo cfg env =
      ⟨.error (.remuxError env.remux.stderr), [],
        [("/tmp/") ++ (hexString env.randBytes ++ (".mp4"))], [], []⟩ := by
  have h7' : ¬ (f.size > MAX_UPLOAD_SIZE) := by omega
  simp only [handlerUploadVideo, h1, h2, h3, h4, h5, h6, h8, h7', uploadTryBlock,
    getVideoAspectRatio, processVideoForFastStart, h9, h10, h11, h12, h13]
  simp [h13]

/-- A content type other than `video/mp4` is rejected at the validation
gate, before the temp-file write and the staged pipeline. -/
theorem handlerUploadVideo_bad_content_type (cfg : ApiConfig) (env : VideoEnv)
    (s u : String) (video : Video) (f : UploadedFile)
    (h1 : env.videoId = some s) (h2 : env.uuidValid = true) (h3 : env.auth = .ok u)
    (h4 : env.storedVideo = some video) (h5 : video.userID = u)
    (h6 : env.formFile = some f) (h7 : f.size ≤ MAX_UPLOAD_SIZE)
    (h8 : f.type ≠ ("video/mp4")) :
    handlerUploadVideo cfg env = reject (.badRequest ("Invalid Content-Type for video")) := by
  have h7' : ¬ (f.size > MAX_UPLOAD_SIZE) := by omega
  simp only [handlerUploadVideo, h1, h2, h3, h4, h5, h6, h7', h8]
  simp [h8]

/-- A validated `handlerUploadThumbnail` run in closed form: one write at
the final asset path, one record handed over, the file on disk at return
whether or not the record update succeeds. -/
theorem handlerUploadThumbnail_spec (cfg : ApiConfig) (env : ThumbEnv)
    (s u : String) (video : Video) (f : UploadedFile)
    (h1 : env.videoId = some s) (h2 : env.auth = .ok u)
    (h3 : env.storedVideo = some video) (h4 : video.userID = u)
    (h5 : env.formFile = some f) (h6 : f.size ≤ THUMB_MAX_UPLOAD_SIZE)
    (h7 : f.type ≠ ("")) :
    handlerUploadThumbnail cfg env =
      (let filename := s ++ mediaTypeToExtS f.type
      let assetDiskPath := getAssetDiskPath cfg filename
      let video2 := { video with thumbnailURL := some (getAssetUrl cfg filename) }
      if env.dbOk = false then
        ⟨.error (.persistenceError ("updateVideo failed")), [assetDiskPath],
          [assetDiskPath], [], [video2]⟩
      else
        ⟨.ok (200, some video2), [assetDiskPath], [assetDiskPath], [], [video2]⟩) := by
  have h6' : ¬ (f.size > THUMB_MAX_UPLOAD_SIZE) := by omega
  simp only [handlerUploadThumbnail, h1, h2, h3, h4, h5, h6', h7]
  simp [h7]

/-- `splitSlash` never returns the empty list. -/
theorem splitSlash_ne_nil (l : List Char) : splitSlash l ≠ [] := by
  cases l with
  | nil => simp [splitSlash]
  | cons c cs =>
    simp only [splitSlash]
    split
    · simp
    · cases hs : splitSlash cs <;> simp

/-- The number of split parts is the slash count plus one, as with
JavaScript `String.split`. -/
theorem splitSlash_length (l : List Char) :
    (splitSlash l).length = l.count ('/') + 1 := by
  induction l with
  | nil => simp [splitSlash]
  | cons c cs ih =>
    simp only [splitSlash]
    by_cases hc : c = ('/')
    · simp [hc, List.count_cons, ih]
    · simp only [if_neg hc]
      cases hs : splitSlash cs with
      | nil => exact absurd hs (splitSlash_ne_nil cs)
      | cons p ps =>
        rw [hs] at ih
        simp [List.count_cons, hc, ← ih]

/-- A slash-free string splits into itself alone. -/
theorem splitSlash_no_slash (l : List Char) (h : ('/') ∉ l) : splitSlash l = [l] := by
  induction l with
  | nil => simp [splitSlash]
  | cons c cs ih =>
    simp only [List.mem_cons, not_or] at h
    have hc : ¬ c = ('/') := fun hh => h.1 hh.symm
    simp only [splitSlash, if_neg hc, ih h.2]

/-- Splitting at the first slash of `t ++ "/" ++ s` with `t` slash-free
peels off `t`. -/
theorem splitSlash_append (t s : List Char) (ht : ('/') ∉ t) :
    splitSlash (t ++ ('/') :: s) = t :: splitSlash s := by
  induction t with
  | nil => simp [splitSlash]
  | cons c t' ih =>
    simp only [List.mem_cons, not_or] at ht
    have hc : ¬ c = ('/') := fun hh => ht.1 hh.symm
    simp only [List.cons_append, splitSlash, if_neg hc, ih ht.2]
    cases hs : splitSlash (t' ++ ('/') :: s) with
    | nil => exact absurd hs (splitSlash_ne_nil _)
    | cons p ps =>
      rw [hs] at ih
      have := ih ht.2
      simp only [List.cons.injEq] at this
      simp [this.1, this.2]

/-- On `type/subtype` with exactly one slash, `mediaTypeToExt` yields a
dot plus the subtype half. -/
theorem mediaTypeToExt_single_slash (t s : List Char) (ht : ('/') ∉ t) (hs : ('/') ∉ s) :
    mediaTypeToExt (t ++ ('/') :: s) = ('.') :: s := by
  simp only [mediaTypeToExt, splitSlash_append t s ht, splitSlash_no_slash s hs]

/-- On a malformed type (slash count not one), `mediaTypeToExt` yields
the generic binary extension. -/
theorem mediaTypeToExt_malformed (m : List Char) (h : m.count ('/') ≠ 1) :
    mediaTypeToExt m = (".bin").data := by
  have hlen := splitSlash_length m
  simp only [mediaTypeToExt]
  cases e : splitSlash m with
  | nil => rfl
  | cons a l =>
    cases l with
    | nil => rfl
    | cons b l' =>
      cases l' with
      | nil =>
        rw [e] at hlen
        simp at hlen
        omega
      | cons c l'' => rfl

/-- `hexDigitInv` inverts `hexDigit` below 16. -/
theorem hexDigitInv_hexDigit (n : Nat) (h : n < 16) : hexDigitInv (hexDigit n) = n := by
  interval_cases n <;> rfl

/-- Hex encoding is injective on bytes. -/
theorem byteToHex_inj (a b : Nat) (ha : a < 256) (hb : b < 256)
    (h : byteToHex a = byteToHex b) : a = b := by
  simp only [byteToHex, List.cons.injEq, and_true] at h
  have h1 : hexDigitInv (hexDigit (a / 16)) = hexDigitInv (hexDigit (b / 16)) := by rw [h.1]
  have h2 : hexDigitInv (hexDigit (a % 16)) = hexDigitInv (hexDigit (b % 16)) := by rw [h.2]
  rw [hexDigitInv_hexDigit _ (by omega), hexDigitInv_hexDigit _ (by omega)] at h1
  rw [hexDigitInv_hexDigit _ (by omega), hexDigitInv_hexDigit _ (by omega)] at h2
  omega

/-- Hex encoding is injective on byte lists. -/
theorem bytesToHex_inj : ∀ (xs ys : List Nat), (∀ b ∈ xs, b < 256) → (∀ b ∈ ys, b < 256) →
    bytesToHex xs = bytesToHex ys → xs = ys
  | [], [], _, _, _ => rfl
  | [], y :: ys, _, _, h => by simp [bytesToHex, byteToHex] at h
  | x :: xs, [], _, _, h => by simp [bytesToHex, byteToHex] at h
  | x :: xs, y :: ys, hx, hy, h => by
    simp only [bytesToHex, byteToHex, List.cons_append, List.nil_append,
      List.cons.injEq] at h
    have hx1 : x < 256 := hx x (by simp)
    have hy1 : y < 256 := hy y (by simp)
    have hxy : x = y := byteToHex_inj x y hx1 hy1 (by simp [byteToHex, h.1, h.2.1])
    have htl : xs = ys :=
      bytesToHex_inj xs ys (fun b hb => hx b (by simp [hb])) (fun b hb => hy b (by simp [hb]))
        h.2.2
    rw [hxy, htl]

/-- The random key component determines the random bytes: the hex string
of `randomBytes(32)` carries all 256 bits. -/
theorem hexString_inj (xs ys : List Nat) (hx : ∀ b ∈ xs, b < 256) (hy : ∀ b ∈ ys, b < 256)
    (h : hexString xs = hexString ys) : xs = ys := by
  refine bytesToHex_inj xs ys hx hy ?_
  have h2 : (String.mk (bytesToHex xs)).data = (String.mk (bytesToHex ys)).data := by
    rw [show String.mk (bytesToHex xs) = hexString xs from rfl,
      show String.mk (bytesToHex ys) = hexString ys from rfl, h]
  simpa using h2

/-- C1: the claim says every staged file — the raw staged upload and the
remuxed sibling — is absent from scratch storage when the call returns on
every exit path. The code's `finally` block deletes only `tempPath`: on
this fully successful run (and on a storage-failure run) the remuxed
sibling `/tmp/<key>.mp4.processed` is still present at return, while the
raw staged file is gone. -/
theorem C1_remuxed_sibling_left_on_disk :
    (handlerUploadVideo cfg0 envOk).succeeded = true ∧
    (("/tmp/") ++ (hexString bytes0 ++ (".mp4.processed"))) ∈ (handlerUploadVideo cfg0 envOk).fs ∧
    (("/tmp/") ++ (hexString bytes0 ++ (".mp4"))) ∉ (handlerUploadVideo cfg0 envOk).fs ∧
    (handlerUploadVideo cfg0 envS3Fail).succeeded = false ∧
    (("/tmp/") ++ (hexString bytes0 ++ (".mp4.processed"))) ∈ (handlerUploadVideo cfg0 envS3Fail).fs := by
  decide

/-- C2 counterexample: an upload whose videoID has no record, sent to the
primary-media handler, is rejected with `BadRequestError("Video not
found")`, not with the NotFound kind the claim requires for both
handlers. -/
theorem C2_counterexample :
    (handlerUploadVideo cfg0 envNoVideo).rejectedWithNotFound = false ∧
    (handlerUploadVideo cfg0 envNoVideo).outcome = .error (.badRequest ("Video not found")) := by
  decide

/-- C2 amended: on an unknown videoID the thumbnail handler rejects with
the NotFound kind — distinct from BadRequest and Forbidden — while the
primary-media handler rejects with BadRequest. -/
theorem C2_missing_video_error_kinds (cfg : ApiConfig) (envV : VideoEnv) (envT : ThumbEnv)
    (sV uV sT uT : String)
    (hV1 : envV.videoId = some sV) (hV2 : envV.uuidValid = true)
    (hV3 : envV.auth = .ok uV) (hV4 : envV.storedVideo = none)
    (hT1 : envT.videoId = some sT) (hT2 : envT.auth = .ok uT)
    (hT3 : envT.storedVideo = none) :
    (handlerUploadVideo cfg envV).outcome = .error (.badRequest ("Video not found")) ∧
    (handlerUploadThumbnail cfg envT).outcome = .error (.notFound ("Could not find video")) ∧
    (∀ m m' : String, ApiError.notFound m ≠ ApiError.badRequest m' ∧
      ApiError.notFound m ≠ ApiError.userForbidden m') := by
  refine ⟨?_, ?_, ?_⟩
  · rw [handlerUploadVideo_missing_video cfg envV sV uV hV1 hV2 hV3 hV4]
    rfl
  · rw [handlerUploadThumbnail_missing_video cfg envT sT uT hT1 hT2 hT3]
    rfl
  · intro m m'
    exact ⟨fun hc => ApiError.noConfusion hc, fun hc => ApiError.noConfusion hc⟩

/-- C2 witness: the amended kinds at a concrete unknown-videoID run of
each handler. -/
theorem C2_missing_video_error_kinds_witness :
    (handlerUploadVideo cfg0 envNoVideo).outcome = .error (.badRequest ("Video not found")) ∧
    (handlerUploadThumbnail cfg0 tenvNoVideo).outcome = .error (.notFound ("Could not find video")) := by
  have h := C2_missing_video_error_kinds cfg0 envNoVideo tenvNoVideo uuid0 ("user-1")
    uuid0 ("user-1") rfl rfl rfl rfl rfl rfl rfl
  exact ⟨h.1, h.2.1⟩

/-- C3 counterexample: a fully successful primary-media upload returns a
200 response whose body is the updated video record, not an empty body as
the claim states. -/
theorem C3_counterexample :
    (handlerUploadVideo cfg0 envOk).succeeded = true ∧
    (handlerUploadVideo cfg0 envOk).body ≠ none := by
  decide

/-- C3 amended: a successful upload of either asset class returns the
updated video record as the response body — the primary-media handler
too, not an empty body. -/
theorem C3_success_bodies (cfg : ApiConfig) (envV : VideoEnv) (envT : ThumbEnv)
    (sV uV : String) (video : Video) (fV : UploadedFile) (w h : Nat)
    (h1 : envV.videoId = some sV) (h2 : envV.uuidValid = true) (h3 : envV.auth = .ok uV)
    (h4 : envV.storedVideo = some video) (h5 : video.userID = uV)
    (h6 : envV.formFile = some fV) (h7 : fV.size ≤ MAX_UPLOAD_SIZE)
    (h8 : fV.type = ("video/mp4")) (h9 : envV.probe.exitCode = 0)
    (h10 : envV.probe.dims = some (w, h)) (h11 : w ≠ 0) (h12 : h ≠ 0)
    (h13 : envV.remux.exitCode = 0) (h14 : envV.s3Ok = true) (h15 : envV.dbOk = true)
    (sT uT : String) (tvideo : Video) (fT : UploadedFile)
    (t1 : envT.videoId = some sT) (t2 : envT.auth = .ok uT)
    (t3 : envT.storedVideo = some tvideo) (t4 : tvideo.userID = uT)
    (t5 : envT.formFile = some fT) (t6 : fT.size ≤ THUMB_MAX_UPLOAD_SIZE)
    (t7 : fT.type ≠ ("")) (t8 : envT.dbOk = true) :
    (handlerUploadVideo cfg envV).succeeded = true ∧
    (handlerUploadVideo cfg envV).body = some { video with
      videoURL := some (("https://") ++ cfg.s3CfDistribution ++ ("/")
        ++ (classifyAspect (w : ℚ) (h : ℚ) ++ ("/") ++ (hexString envV.randBytes ++ (".mp4")))) } ∧
    (handlerUploadThumbnail cfg envT).succeeded = true ∧
    (handlerUploadThumbnail cfg envT).body = some { tvideo with
      thumbnailURL := some (getAssetUrl cfg (sT ++ mediaTypeToExtS fT.type)) } := by
  rw [handlerUploadVideo_success_spec cfg envV sV uV video fV w h
    h1 h2 h3 h4 h5 h6 h7 h8 h9 h10 h11 h12 h13 h14 h15,
    handlerUploadThumbnail_spec cfg envT sT uT tvideo fT t1 t2 t3 t4 t5 t6 t7]
  simp [t8, RunResult.succeeded, RunResult.body]

/-- C3 witness: both handlers succeed on the concrete fully valid runs. -/
theorem C3_success_bodies_witness :
    (handlerUploadVideo cfg0 envOk).succeeded = true ∧
    (handlerUploadThumbnail cfg0 tenvOk).succeeded = true := by
  have h := C3_success_bodies cfg0 envOk tenvOk uuid0 ("user-1") vid0 fileOk 1920 1080
    rfl rfl rfl rfl rfl rfl (by decide) rfl rfl rfl (by decide) (by decide) rfl rfl rfl
    uuid0 ("user-1") vid0 fileThumb rfl rfl rfl rfl rfl (by decide) (by decide) rfl
  exact ⟨h.1, h.2.2.1⟩

/-- C4: when the remux subprocess exits non-zero in a run that reached
it, the remux error is surfaced unchanged, no storage upload is
attempted, and no record is handed to `updateVideo`. -/
theorem C4_remux_failure_effects (cfg : ApiConfig) (env : VideoEnv)
    (s u : String) (video : Video) (f : UploadedFile) (w h : Nat)
    (h1 : env.videoId = some s) (h2 : env.uuidValid = true) (h3 : env.auth = .ok u)
    (h4 : env.storedVideo = some video) (h5 : video.userID = u)
    (h6 : env.formFile = some f) (h7 : f.size ≤ MAX_UPLOAD_SIZE)
    (h8 : f.type = ("video/mp4")) (h9 : env.probe.exitCode = 0)
    (h10 : env.probe.dims = some (w, h)) (h11 : w ≠ 0) (h12 : h ≠ 0)
    (h13 : env.remux.exitCode ≠ 0) :
    (handlerUploadVideo cfg env).outcome = .error (.remuxError env.remux.stderr) ∧
    (handlerUploadVideo cfg env).storageCalls = [] ∧
    (handlerUploadVideo cfg env).dbWrites = [] := by
  rw [handlerUploadVideo_remux_failure cfg env s u video f w h
    h1 h2 h3 h4 h5 h6 h7 h8 h9 h10 h11 h12 h13]
  exact ⟨rfl, rfl, rfl⟩

/-- C4 witness: the remux-failure effects at a concrete run whose ffmpeg
exits with code 1. -/
theorem C4_remux_failure_effects_witness :
    (handlerUploadVideo cfg0 envRemuxFail).outcome = .error (.remuxError ("ffmpeg diagnostics")) ∧
    (handlerUploadVideo cfg0 envRemuxFail).storageCalls = [] ∧
    (handlerUploadVideo cfg0 envRemuxFail).dbWrites = [] := by
  exact C4_remux_failure_effects cfg0 envRemuxFail uuid0 ("user-1") vid0 fileOk 1920 1080
    rfl rfl rfl rfl rfl rfl (by decide) rfl rfl rfl (by decide) (by decide) (by decide)

/-- A 16:9 probe result classifies as landscape. -/
theorem classifyAspect_landscape :
    classifyAspect ((1920 : Nat) : ℚ) ((1080 : Nat) : ℚ) = ("landscape") := by
  have h1 : |((1920 : Nat) : ℚ) / ((1080 : Nat) : ℚ) - 16 / 9| < 1 / 10 := by
    push_cast
    rw [abs_sub_lt_iff]
    norm_num
  show (if |((1920 : Nat) : ℚ) / ((1080 : Nat) : ℚ) - 16 / 9| < 1 / 10 then ("landscape")
    else if |((1920 : Nat) : ℚ) / ((1080 : Nat) : ℚ) - 9 / 16| < 1 / 10 then ("portrait")
    else ("other")) = ("landscape")
  rw [if_pos h1]

/-- A 9:16 probe result classifies as portrait. -/
theorem classifyAspect_portrait :
    classifyAspect ((1080 : Nat) : ℚ) ((1920 : Nat) : ℚ) = ("portrait") := by
  have h1 : ¬ |((1080 : Nat) : ℚ) / ((1920 : Nat) : ℚ) - 16 / 9| < 1 / 10 := by
    push_cast
    rw [not_lt, le_abs]
    norm_num
  have h2 : |((1080 : Nat) : ℚ) / ((1920 : Nat) : ℚ) - 9 / 16| < 1 / 10 := by
    push_cast
    rw [abs_sub_lt_iff]
    norm_num
  show (if |((1080 : Nat) : ℚ) / ((1920 : Nat) : ℚ) - 16 / 9| < 1 / 10 then ("landscape")
    else if |((1080 : Nat) : ℚ) / ((1920 : Nat) : ℚ) - 9 / 16| < 1 / 10 then ("portrait")
    else ("other")) = ("portrait")
  rw [if_neg h1, if_pos h2]

/-- A square probe result deviates more than 0.1 from both targets and
classifies as other. -/
theorem classifyAspect_square :
    classifyAspect ((1000 : Nat) : ℚ) ((1000 : Nat) : ℚ) = ("other") := by
  have h1 : ¬ |((1000 : Nat) : ℚ) / ((1000 : Nat) : ℚ) - 16 / 9| < 1 / 10 := by
    push_cast
    rw [not_lt, le_abs]
    norm_num
  have h2 : ¬ |((1000 : Nat) : ℚ) / ((1000 : Nat) : ℚ) - 9 / 16| < 1 / 10 := by
    push_cast
    rw [not_lt, le_abs]
    norm_num
  show (if |((1000 : Nat) : ℚ) / ((1000 : Nat) : ℚ) - 16 / 9| < 1 / 10 then ("landscape")
    else if |((1000 : Nat) : ℚ) / ((1000 : Nat) : ℚ) - 9 / 16| < 1 / 10 then ("portrait")
    else ("other")) = ("other")
  rw [if_neg h1, if_neg h2]

/-- C5: for every probe reporting positive width and height, the
classification equals the spec's deterministic decision rule, and in
particular 1920x1080 is landscape, 1080x1920 is portrait, and 1000x1000
is other. -/
theorem C5_aspect_classification :
    (∀ (p : ProbeOutcome) (w h : Nat), p.exitCode = 0 → p.dims = some (w, h) →
      0 < w → 0 < h → getVideoAspectRatio p = .ok (specClassify w h)) ∧
    getVideoAspectRatio ⟨0, (""), some (1920, 1080)⟩ = .ok ("landscape") ∧
    getVideoAspectRatio ⟨0, (""), some (1080, 1920)⟩ = .ok ("portrait") ∧
    getVideoAspectRatio ⟨0, (""), some (1000, 1000)⟩ = .ok ("other") := by
  refine ⟨?_, ?_, ?_, ?_⟩
  · intro p w h hp hd hw hh
    have hwh : ¬ (w = 0 ∨ h = 0) := by omega
    simp only [getVideoAspectRatio, hp, hd, classifyAspect, specClassify]
    simp [hwh]
  · show Except.ok (classifyAspect ((1920 : Nat) : ℚ) ((1080 : Nat) : ℚ)) = _
    rw [classifyAspect_landscape]
  · show Except.ok (classifyAspect ((1080 : Nat) : ℚ) ((1920 : Nat) : ℚ)) = _
    rw [classifyAspect_portrait]
  · show Except.ok (classifyAspect ((1000 : Nat) : ℚ) ((1000 : Nat) : ℚ)) = _
    rw [classifyAspect_square]

/-- C5 witness: the general rule applied at a concrete 1920x1080 probe. -/
theorem C5_aspect_classification_witness :
    getVideoAspectRatio ⟨0, (""), some (1920, 1080)⟩ = .ok (specClassify 1920 1080) :=
  C5_aspect_classification.1 ⟨0, (""), some (1920, 1080)⟩ 1920 1080 rfl rfl
    (by decide) (by decide)

/-- C6: on every successful primary-media run the committed record's
videoURL is exactly `https://<distribution>/<classification>/<hex>.mp4`,
where `<hex>` is the hex encoding of the 32 fresh random bytes of that
run (8·32 = 256 bits, none lost: the encoding is injective), and the
`.mp4` extension is what the subtype of the `video/mp4` content type
derives. -/
theorem C6_committed_url_shape (cfg : ApiConfig) (env : VideoEnv)
    (s u : String) (video : Video) (f : UploadedFile) (w h : Nat)
    (h1 : env.videoId = some s) (h2 : env.uuidValid = true) (h3 : env.auth = .ok u)
    (h4 : env.storedVideo = some video) (h5 : video.userID = u)
    (h6 : env.formFile = some f) (h7 : f.size ≤ MAX_UPLOAD_SIZE)
    (h8 : f.type = ("video/mp4")) (h9 : env.probe.exitCode = 0)
    (h10 : env.probe.dims = some (w, h)) (h11 : w ≠ 0) (h12 : h ≠ 0)
    (h13 : env.remux.exitCode = 0) (h14 : env.s3Ok = true) (h15 : env.dbOk = true)
    (hlen : env.randBytes.length = 32) (hbytes : ∀ b ∈ env.randBytes, b < 256) :
    (handlerUploadVideo cfg env).dbWrites = [{ video with
      videoURL := some (("https://") ++ cfg.s3CfDistribution ++ ("/")
        ++ (classifyAspect (w : ℚ) (h : ℚ) ++ ("/") ++ (hexString env.randBytes ++ (".mp4")))) }] ∧
    8 * env.randBytes.length = 256 ∧
    (∀ bs : List Nat, (∀ b ∈ bs, b < 256) →
      hexString bs = hexString env.randBytes → bs = env.randBytes) ∧
    mediaTypeToExtS (("video/mp4")) = (".mp4") := by
  refine ⟨?_, by omega, fun bs hbs hh => hexString_inj bs env.randBytes hbs hbytes hh, by decide⟩
  rw [handlerUploadVideo_success_spec cfg env s u video f w h
    h1 h2 h3 h4 h5 h6 h7 h8 h9 h10 h11 h12 h13 h14 h15]

/-- C6 witness: the committed URL at the concrete successful run. -/
theorem C6_committed_url_shape_witness :
    (handlerUploadVideo cfg0 envOk).dbWrites = [{ vid0 with
      videoURL := some (("https://") ++ cfg0.s3CfDistribution ++ ("/")
        ++ (classifyAspect ((1920 : Nat) : ℚ) ((1080 : Nat) : ℚ) ++ ("/")
          ++ (hexString bytes0 ++ (".mp4")))) }] ∧
    8 * bytes0.length = 256 := by
  have h := C6_committed_url_shape cfg0 envOk uuid0 ("user-1") vid0 fileOk 1920 1080
    rfl rfl rfl rfl rfl rfl (by decide) rfl rfl rfl (by decide) (by decide) rfl rfl rfl
    (by decide) (by decide)
  exact ⟨h.1, h.2.1⟩

/-- C7: a primary-media upload whose content type is not exactly
`video/mp4` is rejected with BadRequest at the validation gate: nothing
is ever written, no storage call is made, nothing is on disk. -/
theorem C7_content_type_gate (cfg : ApiConfig) (env : VideoEnv)
    (s u : String) (video : Video) (f : UploadedFile)
    (h1 : env.videoId = some s) (h2 : env.uuidValid = true) (h3 : env.auth = .ok u)
    (h4 : env.storedVideo = some video) (h5 : video.userID = u)
    (h6 : env.formFile = some f) (h7 : f.size ≤ MAX_UPLOAD_SIZE)
    (h8 : f.type ≠ ("video/mp4")) :
    (handlerUploadVideo cfg env).outcome = .error (.badRequest ("Invalid Content-Type for video")) ∧
    (handlerUploadVideo cfg env).writes = [] ∧
    (handlerUploadVideo cfg env).storageCalls = [] ∧
    (handlerUploadVideo cfg env).fs = [] := by
  rw [handlerUploadVideo_bad_content_type cfg env s u video f h1 h2 h3 h4 h5 h6 h7 h8]
  exact ⟨rfl, rfl, rfl, rfl⟩

/-- C7 witness: the gate at a concrete `video/quicktime` upload. -/
theorem C7_content_type_gate_witness :
    (handlerUploadVideo cfg0 envBadType).outcome = .error (.badRequest ("Invalid Content-Type for video")) ∧
    (handlerUploadVideo cfg0 envBadType).writes = [] ∧
    (handlerUploadVideo cfg0 envBadType).storageCalls = [] ∧
    (handlerUploadVideo cfg0 envBadType).fs = [] := by
  exact C7_content_type_gate cfg0 envBadType uuid0 ("user-1") vid0 ⟨1000, ("video/quicktime")⟩
    rfl rfl rfl rfl rfl rfl (by decide) (by decide)

/-- C8: on a content type with exactly one slash, `mediaTypeToExt`
returns a dot plus the subtype; on every other string (no slash, or more
than one) it returns the generic `.bin`. -/
theorem C8_mediaTypeToExt_spec :
    (∀ t s : List Char, ('/') ∉ t → ('/') ∉ s →
      mediaTypeToExt (t ++ ('/') :: s) = ('.') :: s) ∧
    (∀ m : List Char, m.count ('/') ≠ 1 → mediaTypeToExt m = (".bin").data) :=
  ⟨mediaTypeToExt_single_slash, mediaTypeToExt_malformed⟩

/-- C8 witness: `image/png` maps to `.png` and `a/b/c` to `.bin`. -/
theorem C8_mediaTypeToExt_spec_witness :
    mediaTypeToExt (("image").data ++ ('/') :: ("png").data) = ('.') :: ("png").data ∧
    mediaTypeToExt (("a/b/c").data) = (".bin").data :=
  ⟨C8_mediaTypeToExt_spec.1 (("image").data) (("png").data) (by decide) (by decide),
    C8_mediaTypeToExt_spec.2 (("a/b/c").data) (by decide)⟩

/-- C9: every record handed to the store differs from the record read by
exactly one field — `videoURL` for a primary-media run, `thumbnailURL`
for a thumbnail run — as the structure-update form states; this holds
whether or not the persistence call itself then succeeds. -/
theorem C9_single_field_frame (cfg : ApiConfig) (envV : VideoEnv) (envT : ThumbEnv)
    (sV uV : String) (video : Video) (fV : UploadedFile) (w h : Nat)
    (h1 : envV.videoId = some sV) (h2 : envV.uuidValid = true) (h3 : envV.auth = .ok uV)
    (h4 : envV.storedVideo = some video) (h5 : video.userID = uV)
    (h6 : envV.formFile = some fV) (h7 : fV.size ≤ MAX_UPLOAD_SIZE)
    (h8 : fV.type = ("video/mp4")) (h9 : envV.probe.exitCode = 0)
    (h10 : envV.probe.dims = some (w, h)) (h11 : w ≠ 0) (h12 : h ≠ 0)
    (h13 : envV.remux.exitCode = 0) (h14 : envV.s3Ok = true)
    (sT uT : String) (tvideo : Video) (fT : UploadedFile)
    (t1 : envT.videoId = some sT) (t2 : envT.auth = .ok uT)
    (t3 : envT.storedVideo = some tvideo) (t4 : tvideo.userID = uT)
    (t5 : envT.formFile = some fT) (t6 : fT.size ≤ THUMB_MAX_UPLOAD_SIZE)
    (t7 : fT.type ≠ ("")) :
    (handlerUploadVideo cfg envV).dbWrites = [{ video with
      videoURL := some (("https://") ++ cfg.s3CfDistribution ++ ("/")
        ++ (classifyAspect (w : ℚ) (h : ℚ) ++ ("/") ++ (hexString envV.randBytes ++ (".mp4")))) }] ∧
    (handlerUploadThumbnail cfg envT).dbWrites = [{ tvideo with
      thumbnailURL := some (getAssetUrl cfg (sT ++ mediaTypeToExtS fT.type)) }] := by
  constructor
  · rcases Bool.eq_false_or_eq_true envV.dbOk with hdb | hdb
    · rw [handlerUploadVideo_success_spec cfg envV sV uV video fV w h
        h1 h2 h3 h4 h5 h6 h7 h8 h9 h10 h11 h12 h13 h14 hdb]
    · rw [handlerUploadVideo_db_failure cfg envV sV uV video fV w h
        h1 h2 h3 h4 h5 h6 h7 h8 h9 h10 h11 h12 h13 h14 hdb]
  · rw [handlerUploadThumbnail_spec cfg envT sT uT tvideo fT t1 t2 t3 t4 t5 t6 t7]
    rcases Bool.eq_false_or_eq_true envT.dbOk with hdb | hdb <;> simp [hdb]

/-- C9 witness: the single-field frame at the concrete successful runs of
both handlers. -/
theorem C9_single_field_frame_witness :
    (handlerUploadVideo cfg0 envOk).dbWrites = [{ vid0 with
      videoURL := some (("https://") ++ cfg0.s3CfDistribution ++ ("/")
        ++ (classifyAspect ((1920 : Nat) : ℚ) ((1080 : Nat) : ℚ) ++ ("/")
          ++ (hexString bytes0 ++ (".mp4")))) }] ∧
    (handlerUploadThumbnail cfg0 tenvOk).dbWrites = [{ vid0 with
      thumbnailURL := some (getAssetUrl cfg0 (uuid0 ++ mediaTypeToExtS (("image/png")))) }] := by
  exact C9_single_field_frame cfg0 envOk tenvOk uuid0 ("user-1") vid0 fileOk 1920 1080
    rfl rfl rfl rfl rfl rfl (by decide) rfl rfl rfl (by decide) (by decide) rfl rfl
    uuid0 ("user-1") vid0 fileThumb rfl rfl rfl rfl rfl (by decide) (by decide)

/-- C10: the thumbnail handler stages nothing and never deletes: its one
write goes directly to the final asset path, and when the record-store
update then fails, the error is surfaced with the thumbnail file still on
disk at that final path. -/
theorem C10_thumbnail_no_cleanup (cfg : ApiConfig) (env : ThumbEnv)
    (s u : String) (video : Video) (f : UploadedFile)
    (h1 : env.videoId = some s) (h2 : env.auth = .ok u)
    (h3 : env.storedVideo = some video) (h4 : video.userID = u)
    (h5 : env.formFile = some f) (h6 : f.size ≤ THUMB_MAX_UPLOAD_SIZE)
    (h7 : f.type ≠ ("")) (hdb : env.dbOk = false) :
    (handlerUploadThumbnail cfg env).outcome = .error (.persistenceError ("updateVideo failed")) ∧
    (handlerUploadThumbnail cfg env).writes =
      [getAssetDiskPath cfg (s ++ mediaTypeToExtS f.type)] ∧
    (handlerUploadThumbnail cfg env).fs =
      [getAssetDiskPath cfg (s ++ mediaTypeToExtS f.type)] := by
  rw [handlerUploadThumbnail_spec cfg env s u video f h1 h2 h3 h4 h5 h6 h7]
  simp [hdb]

/-- C10 witness: the persistence-failure run at a concrete thumbnail
upload leaves the file at its final asset path. -/
theorem C10_thumbnail_no_cleanup_witness :
    (handlerUploadThumbnail cfg0 tenvDbFail).outcome = .error (.persistenceError ("updateVideo failed")) ∧
    (handlerUploadThumbnail cfg0 tenvDbFail).fs =
      [getAssetDiskPath cfg0 (uuid0 ++ mediaTypeToExtS (("image/png")))] := by
  have h := C10_thumbnail_no_cleanup cfg0 tenvDbFail uuid0 ("user-1") vid0 fileThumb
    rfl rfl rfl rfl rfl (by decide) (by decide) rfl
  exact ⟨h.1, h.2.2⟩
